import Mathlib

/-!
# Verification of the agent-company Deliberation & Quorum-Weighted Decision Engine

A shallow embedding of the core of `src/core/orchestrator.py`,
`src/agents/agent_manager.py`, `src/agents/base_agent.py` and
`src/core/config.py`.

Modelling conventions:
* Python `float` vote weights and percentages are modelled as `ℚ` (the spec
  itself calls `baseWeight` a rational number); Python `dict`s keyed by agent
  id are modelled as association lists `List (String × _)` in insertion order.
* A Python `KeyError` (unguarded `VOTING_WEIGHTS[agent_id]` lookup) is
  modelled by `Option`: `none` means the exception propagated.
* External collaborators (the AI content generator, file system, memory
  store, notifications) are side effects that do not influence the values
  proved about; nondeterministic generated text is abstracted as an oracle
  `respond : String → String → String` mapping (agent id, default/fallback
  text) to the text actually produced, mirroring
  `agent.generate_response(context, default_content)` with its
  fall-back-to-default exception handler.
* Timestamps, file paths and the `roi` constant block are dropped from the
  records: no claim mentions them and they carry no logic.
-/

namespace AgentCompany

/-! ## String helpers modelling Python primitives

Implemented by structural recursion over the character list of the string,
with the exact Python semantics (character-based indexing, non-overlapping
occurrence counts, whitespace-run word splitting). -/

/-- Whether `pat` is a prefix of `l`. -/
def isPrefixList : List Char → List Char → Bool
  | [], _ => true
  | _ :: _, [] => false
  | p :: ps, c :: cs => p = c && isPrefixList ps cs

/-- Whether `pat` occurs somewhere in `l`. -/
def containsList (pat : List Char) : List Char → Bool
  | [] => pat.isEmpty
  | c :: cs => isPrefixList pat (c :: cs) || containsList pat cs

/-- Python `pat in s` (substring containment). -/
def containsSub (s pat : String) : Bool :=
  containsList pat.data s.data

/-- Scan for non-overlapping occurrences of `pat`: the counter `skip` is
the number of characters of a found match still to be passed over. -/
def countOccsAux (pat : List Char) : List Char → Nat → Nat
  | [], _ => 0
  | c :: cs, 0 =>
    if isPrefixList pat (c :: cs) then 1 + countOccsAux pat cs (pat.length - 1)
    else countOccsAux pat cs 0
  | _ :: cs, n + 1 => countOccsAux pat cs n

/-- Python `s.count(pat)` for nonempty `pat`: non-overlapping occurrences,
scanning left to right. -/
def countOccs (s pat : String) : Nat :=
  countOccsAux pat.data s.data 0

/-- Count maximal nonempty whitespace-free runs; the flag records whether
the scan is inside such a run. -/
def wordsAux : List Char → Bool → Nat
  | [], _ => 0
  | c :: cs, inWord =>
    if c.isWhitespace then wordsAux cs false
    else (if inWord then 0 else 1) + wordsAux cs true

/-- Python `len(s.split())`: number of maximal nonempty whitespace-free
chunks. -/
def wordCount (s : String) : Nat :=
  wordsAux s.data false

/-- Python `s.lower()`, on the character list (ASCII case folding; the
Arabic text of this code base has no letter case). -/
def toLowerStr (s : String) : String :=
  String.mk (s.data.map Char.toLower)

/-- Python `s.startswith(pat)`. -/
def startsWithStr (s pat : String) : Bool :=
  isPrefixList pat.data s.data

/-- Python `s[:n]` (character slice). -/
def takeStr (s : String) (n : Nat) : String :=
  String.mk (s.data.take n)

/-! ## Configuration (`src/core/config.py`) -/

/-- The `AGENT_ROLES` list from `src/core/config.py` (lines 74-85). -/
def AGENT_ROLES : List String :=
  ["ceo", "pm", "cto", "developer", "qa", "marketing", "finance", "critic",
   "chair", "memory"]

/-- The `VOTING_WEIGHTS` dict literal from `src/core/config.py`
(lines 101-112), as an association list in declaration order. -/
def VOTING_WEIGHTS_TABLE : List (String × ℚ) :=
  [("ceo", 15/10), ("pm", 13/10), ("cto", 13/10), ("developer", 12/10),
   ("qa", 11/10), ("marketing", 1), ("finance", 12/10), ("critic", 11/10),
   ("chair", 1), ("memory", 0)]

/-- First-match association-list lookup. -/
def lookupWeight : List (String × ℚ) → String → Option ℚ
  | [], _ => none
  | kv :: rest, k => if kv.1 = k then some kv.2 else lookupWeight rest k

/-- Python `VOTING_WEIGHTS[k]`; `none` models the `KeyError` raised for a
key outside the dict. -/
def VOTING_WEIGHTS (k : String) : Option ℚ :=
  lookupWeight VOTING_WEIGHTS_TABLE k

/-- Default for `MIN_VOTING_PARTICIPANTS` in `Config` (config.py line 24). -/
def MIN_VOTING_PARTICIPANTS : Nat := 7

/-! ## Agent profile (`src/agents/base_agent.py`) -/

/-- The weight-relevant fields of `AgentProfile` (base_agent.py lines 10-19). -/
structure AgentProfile where
  id : String
  voting_weight : ℚ
  reputation_score : ℚ := 1
deriving Repr, DecidableEq

/-- Embeds `BaseAgent.get_voting_weight` (base_agent.py lines 67-70): base weight
multiplied by the reputation score. -/
def get_voting_weight (p : AgentProfile) : ℚ :=
  p.voting_weight * p.reputation_score

/-! ## Quorum vote tally (`AgentManager.calculate_voting_result`,
`src/agents/agent_manager.py` lines 290-340) -/

/-- Python `vote in ["موافق", "موافق بشروط"]` (agent_manager.py line 320). -/
def isPositiveVote (v : String) : Bool :=
  v = "موافق" || v = "موافق بشروط"

/-- The quorum count (agent_manager.py line 294):
`len([aid for aid in votes.keys() if VOTING_WEIGHTS[aid] > 0])`.
Any unknown key raises `KeyError` (`none`). -/
def countVotingAgents : List (String × String) → Option Nat
  | [] => some 0
  | kv :: rest =>
    match VOTING_WEIGHTS kv.1 with
    | none => none
    | some w =>
      match countVotingAgents rest with
      | none => none
      | some n => some (if 0 < w then n + 1 else n)

/-- The accumulation loop of agent_manager.py lines 315-321: running
`(total_weight, positive_weight)` over the votes in order; an unknown key
raises `KeyError` (`none`). -/
def sumWeightsAux (acc : ℚ × ℚ) : List (String × String) → Option (ℚ × ℚ)
  | [] => some acc
  | kv :: rest =>
    match VOTING_WEIGHTS kv.1 with
    | none => none
    | some w =>
      sumWeightsAux (acc.1 + w, if isPositiveVote kv.2 then acc.2 + w else acc.2) rest

/-- The whole weight loop started from `total_weight = 0`,
`positive_weight = 0` (agent_manager.py lines 310-311). -/
def sumWeights (votes : List (String × String)) : Option (ℚ × ℚ) :=
  sumWeightsAux (0, 0) votes

/-- Python `vote_counts[vote] = vote_counts.get(vote, 0) + 1` on a dict kept in
insertion order (agent_manager.py line 323). -/
def bumpCount : List (String × Nat) → String → List (String × Nat)
  | [], k => [(k, 1)]
  | kv :: rest, k =>
    if kv.1 = k then (kv.1, kv.2 + 1) :: rest else kv :: bumpCount rest k

/-- The failure reason string built on agent_manager.py line 299. -/
def quorumFailureReason (c q : Nat) : String :=
  "عدد المصوتين (" ++ toString c ++ ") أقل من النصاب القانوني المطلوب (" ++ toString q ++ ")"

/-- The result dict of `calculate_voting_result`. `failure_reason` is
`none` when the key is absent (the non-quorum branch). -/
structure VotingResult where
  outcome : String
  failure_reason : Option String
  approval_percentage : ℚ
  total_votes : Nat
  voting_agents_count : Nat
  required_quorum : Nat
  vote_breakdown : List (String × Nat)
  total_weight : ℚ
  positive_weight : ℚ
deriving Repr, DecidableEq

/-- Embeds `AgentManager.calculate_voting_result` (agent_manager.py lines 290-340).
`minVoting` is `self.config.MIN_VOTING_PARTICIPANTS`. -/
def calculateVotingResult (minVoting : Nat) (votes : List (String × String)) :
    Option VotingResult :=
  match countVotingAgents votes with
  | none => none
  | some vcount =>
    if vcount < minVoting then
      some { outcome := "failed_quorum",
             failure_reason := some (quorumFailureReason vcount minVoting),
             approval_percentage := 0,
             total_votes := votes.length,
             voting_agents_count := vcount,
             required_quorum := minVoting,
             vote_breakdown := [],
             total_weight := 0,
             positive_weight := 0 }
    else
      match sumWeights votes with
      | none => none
      | some tp =>
        let ap : ℚ := if 0 < tp.1 then tp.2 / tp.1 * 100 else 0
        some { outcome := if 60 ≤ ap then "approved" else "rejected",
               failure_reason := none,
               approval_percentage := ap,
               total_votes := votes.length,
               voting_agents_count := vcount,
               required_quorum := minVoting,
               vote_breakdown := votes.foldl (fun l kv => bumpCount l kv.2) [],
               total_weight := tp.1,
               positive_weight := tp.2 }

/-- The base weight of a known agent, `0` as a don't-care default used only
in statements whose hypotheses force the lookup to succeed. -/
def baseWeightD (k : String) : ℚ :=
  (VOTING_WEIGHTS k).getD 0

/-- The total weight the spec's words describe (spec §4.1 and §4.4 step 3):
each vote contributes `effectiveWeight(p) = p.baseWeight *
p.reputationMultiplier`, where `rep` assigns each participant its current
reputation multiplier. Stated from the spec for comparison with
`calculateVotingResult`. -/
def specEffectiveTotalWeight (rep : String → ℚ) (votes : List (String × String)) : ℚ :=
  (votes.map (fun kv => baseWeightD kv.1 * rep kv.1)).sum

/-! ## Critic gate validator
(`MeetingOrchestrator._validate_critic_evaluation`,
`src/core/orchestrator.py` lines 422-489) -/

/-- Risk/challenge keyword set (orchestrator.py line 433). -/
def riskKeywords : List String :=
  ["مخاطر", "تحديات", "صعوبات", "مشاكل", "تحدي", "صعوبة", "خطر", "risk", "challenge"]

/-- Feasibility keyword set (orchestrator.py line 436). -/
def feasibilityKeywords : List String :=
  ["جدوى", "قابل للتنفيذ", "واقعي", "ممكن", "إمكانية", "تنفيذ", "feasible", "possible"]

/-- Market/competition keyword set (orchestrator.py line 439). -/
def marketKeywords : List String :=
  ["سوق", "منافس", "عملاء", "طلب", "منافسة", "عميل", "market", "competitor"]

/-- Weakness/critique keyword set (orchestrator.py line 442). -/
def weaknessKeywords : List String :=
  ["ضعف", "نقص", "مشكلة", "عيب", "سلبي", "نقد", "لكن", "ولكن", "weakness", "problem"]

/-- Recommendation/opinion keyword set (orchestrator.py line 445). -/
def adviceKeywords : List String :=
  ["أنصح", "أقترح", "توصي", "يجب", "لا يجب", "أرى", "أعتقد", "recommend", "suggest"]

/-- The emergency acceptance subset for very short texts
(orchestrator.py line 466). -/
def emergencyKeywords : List String :=
  ["مخاطر", "مشكلة", "صعوبة", "تحدي", "ضعف", "نقد", "لا أنصح", "غير مناسب"]

/-- The useful-content subset for the last-chance branch
(orchestrator.py lines 475-477). -/
def usefulKeywords : List String :=
  ["تقييم", "تحليل", "رأي", "نظر", "اعتبار", "دراسة", "فحص", "مراجعة"]

/-- The `required_elements` list (orchestrator.py lines 431-446): one boolean per
category, true when the lower-cased content holds at least one keyword. -/
def requiredElements (content : String) : List Bool :=
  [riskKeywords.any (fun kw => containsSub content kw),
   feasibilityKeywords.any (fun kw => containsSub content kw),
   marketKeywords.any (fun kw => containsSub content kw),
   weaknessKeywords.any (fun kw => containsSub content kw),
   adviceKeywords.any (fun kw => containsSub content kw)]

/-- The `not_too_generic` check (orchestrator.py lines 455-459): reject when a counted
superlative occurs more than 5 times or the literal no-issues phrase is
present.  Note the counted superlatives are the Arabic words
"جيد" and "ممتاز" and the phrase is the Arabic "لا مشاكل على الإطلاق". -/
def notTooGeneric (content : String) : Bool :=
  !(decide (5 < countOccs content ("جيد")) ||
    decide (5 < countOccs content ("ممتاز")) ||
    containsSub content ("لا مشاكل على الإطلاق"))

/-- Embeds `_validate_critic_evaluation` on the lower-cased content string
(orchestrator.py lines 422-489): the primary gate conjunction, the
short-text emergency acceptance, and the last-chance useful-content
acceptance. -/
def validateCriticContent (msg : String) : Bool :=
  let content := toLowerStr msg
  let min_length_met := decide (20 ≤ content.length)
  let elements_met := decide (1 ≤ (requiredElements content).count true)
  let has_substance := decide (3 ≤ wordCount content)
  if decide (content.length < 20) &&
      emergencyKeywords.any (fun kw => containsSub content kw) then
    true
  else
    let is_valid := min_length_met && elements_met && notTooGeneric content && has_substance
    if !is_valid && decide (10 < content.length) &&
        usefulKeywords.any (fun kw => containsSub content kw) then
      true
    else
      is_valid

/-! ## Transcript entries and the meeting state machine
(`MeetingOrchestrator._simulate_meeting`, `src/core/orchestrator.py`
lines 188-364) -/

/-- A transcript entry as built by `_create_agent_message`
(orchestrator.py lines 651-656); the wall-clock timestamp is dropped. -/
structure Entry where
  agent : String
  message : String
  type : String
deriving Repr, DecidableEq

/-- Entry-level gate: `_validate_critic_evaluation` reads only
`critic_evaluation.get("message", "")` (orchestrator.py line 425). -/
def validateCriticEvaluation (e : Entry) : Bool :=
  validateCriticContent e.message

/-- Embeds `_create_agent_message` (orchestrator.py lines 624-656) through the
oracle `respond` for `agent.generate_response(context, default_content)`
with its fallback-to-default handler; every `_simulate_meeting` call site
leaves `expected_response_type` unset, so the type is "contribution". -/
def createAgentMessage (respond : String → String → String)
    (agent default : String) : Entry :=
  { agent := agent, message := respond agent default, type := "contribution" }

/-- Chair default text, orchestrator.py line 201. -/
def openingText (agenda : String) : String :=
  "مرحباً بالجميع في اجتماع شركة هايتك. اليوم سنناقش: " ++ agenda ++
  ". كشركة تقنية رائدة، نحتاج لأفكار مبتكرة تحل مشاكل حقيقية."

/-- Chair default text, orchestrator.py line 209. -/
def brainstormText : String :=
  "نبدأ بجولة العصف الذهني. أريد من كل وكيل أن يقترح مشروع تقني مبتكر يحل مشكلة حقيقية في السوق."

/-- Chair default text, orchestrator.py line 230. -/
def discussionText : String :=
  "ممتاز! الآن سنناقش كل اقتراح بالتفصيل. كل وكيل يعطي رأيه التقني والتجاري."

/-- Chair default text, orchestrator.py line 242 (suggestion truncated to
150 characters). -/
def selectionText (suggestion : String) : String :=
  "بناءً على المناقشة المفصلة، أقترح أن نقيم ونصوت على: " ++ takeStr suggestion 150 ++ "..."

/-- Chair default text, orchestrator.py line 250. -/
def evalRequiredText : String :=
  "⚠️ قبل التصويت، نحتاج لتقييم نقدي شامل من الناقد. هذا إجراء إجباري لضمان دراسة جميع المخاطر والتحديات."

/-- The critic fallback evaluation of `_conduct_critic_evaluation`
(orchestrator.py lines 412-418); the critic entry's message is
`respond "critic"` applied to this default. -/
def fallbackEvaluationText : String :=
  "كناقد، أرى أن هذا الاقتراح يحتاج لمراجعة دقيقة. \n\nالمخاطر الرئيسية تشمل التحديات التقنية والتجارية المحتملة. \n\nمن ناحية الجدوى، المشروع قابل للتنفيذ لكن يتطلب موارد كافية ودراسة السوق بعناية.\n\nأنصح بالمتابعة مع وضع خطة مخاطر واضحة."

/-- Chair default text, orchestrator.py line 284. -/
def evalPassedText : String :=
  "✅ تم اجتياز التقييم النقدي بنجاح. يمكننا الآن المتابعة للتصويت."

/-- Chair default text, orchestrator.py line 292. -/
def votingText : String :=
  "الآن التصويت. كل وكيل يعطي صوته مع التبرير."

/-- Per-vote justification default text, orchestrator.py line 315. -/
def voteJustificationText (vote : String) : String :=
  "صوتي: " ++ vote ++ ". السبب: ..."

/-- Chair default text on the quorum-failure branch, orchestrator.py
line 344; `failure_reason` is always present on that branch. -/
def quorumFailText (vr : VotingResult) : String :=
  "⚠️ فشل التصويت: " ++ vr.failure_reason.getD "" ++ ". لا يمكن اتخاذ قرار بدون النصاب القانوني المطلوب."

/-- Chair default text announcing the result, orchestrator.py line 351;
the Python `{:.1f}` float formatting is abstracted to `toString`. -/
def resultText (vr : VotingResult) : String :=
  "نتيجة التصويت: " ++ vr.outcome ++ " بنسبة " ++ toString vr.approval_percentage ++ "%"

/-- Chair default text of the closing step, orchestrator.py line 359. -/
def closingText : String :=
  "شكراً للجميع على هذه المناقشة الثرية والتقييم النقدي الشامل. هذا ما نتوقعه من فريق شركة هايتك المتميز."

/-- Embeds `MeetingOrchestrator._simulate_meeting` (orchestrator.py lines 188-364).
`suggestions` abstracts `_generate_real_project_suggestions` (external idea
generation), `votes` abstracts `agent_manager.conduct_voting` and
`respond` the content generation.  A gate failure appends two explanation
messages locally but then returns the empty list (line 278), so they never
reach the caller.  `none` models a propagating exception (`KeyError` from
the tally). -/
def simulateMeeting (respond : String → String → String) (agenda : String)
    (suggestions : List (String × String)) (votes : List (String × String))
    (minVoting : Nat) : Option (List Entry) :=
  let t0 : List Entry :=
    [createAgentMessage respond "chair" (openingText agenda),
     createAgentMessage respond "chair" brainstormText]
  let t1 := t0 ++ suggestions.map
    (fun s => { agent := s.1, message := s.2, type := "project_proposal" })
  let t2 := t1 ++ [createAgentMessage respond "chair" discussionText]
  match suggestions with
  | [] => some (t2 ++ [createAgentMessage respond "chair" closingText])
  | sel :: _ =>
    let t3 := t2 ++
      [createAgentMessage respond "chair" (selectionText sel.2),
       createAgentMessage respond "chair" evalRequiredText]
    let criticMsg := createAgentMessage respond "critic" fallbackEvaluationText
    let t4 := t3 ++ [criticMsg]
    if !validateCriticEvaluation criticMsg then
      some []
    else
      let t5 := t4 ++
        [createAgentMessage respond "chair" evalPassedText,
         createAgentMessage respond "chair" votingText]
      let t6 := t5 ++
        (votes.filter (fun av => !startsWithStr av.1 "_")).map
          (fun av => createAgentMessage respond av.1 (voteJustificationText av.2))
      match calculateVotingResult minVoting votes with
      | none => none
      | some vr =>
        let t7 :=
          if vr.outcome = "failed_quorum" then
            t6 ++ [createAgentMessage respond "chair" (quorumFailText vr)]
          else
            t6 ++ [createAgentMessage respond "chair" (resultText vr)]
        some (t7 ++ [createAgentMessage respond "chair" closingText])

/-! ## Decision record builder (`_extract_decisions`,
`_generate_action_items`, `_extract_action_items`;
`src/core/orchestrator.py` lines 688-794) -/

/-- Embeds `_generate_action_items` (orchestrator.py lines 757-785): the fixed
checklist templates keyed by outcome. -/
def generateActionItems (title outcome : String) : List String :=
  if outcome = "approved" then
    ["إنشاء مستودع GitHub لمشروع " ++ title,
     "كتابة مواصفات تقنية مفصلة",
     "تصميم هيكل قاعدة البيانات",
     "تطوير النموذج الأولي الأول",
     "إنشاء واجهة المستخدم الأساسية",
     "تطوير واجهة برمجة التطبيقات",
     "إنشاء اختبارات شاملة"]
  else if outcome = "rejected" then
    ["مراجعة أسباب رفض مشروع " ++ title,
     "تحليل ملاحظات الفريق والتحسينات المطلوبة",
     "إعادة تقييم الجدوى التقنية والاقتصادية"]
  else if outcome = "failed_quorum" then
    ["إعادة جدولة التصويت على مشروع " ++ title ++ " للاجتماع القادم",
     "التأكد من حضور جميع الوكلاء المصوتين في الاجتماع القادم"]
  else
    ["إجراء بحث إضافي حول مشروع " ++ title,
     "جمع المزيد من المعلومات التقنية والسوقية"]

/-- The decision dict of `_extract_decisions` (orchestrator.py lines
737-750); the timestamped `id`, constant `roi` block and
`project_details` are dropped. -/
structure Decision where
  title : String
  description : String
  votes : List (String × String)
  outcome : String
  voting_details : VotingResult
  action_items : List String
deriving Repr, DecidableEq

/-- Embeds `_extract_decisions` (orchestrator.py lines 688-755).  It re-runs the
vote on the first `project_proposal` entry: `votes2` abstracts that second
`conduct_voting` call, `extractTitle` the regex/keyword text heuristic
`_extract_project_title`.  `none` models a propagating `KeyError` from the
tally. -/
def extractDecisions (extractTitle : String → String)
    (votes2 : List (String × String)) (minVoting : Nat)
    (transcript : List Entry) : Option (List Decision) :=
  match transcript.filter (fun e => e.type = "project_proposal") with
  | [] => some []
  | sel :: _ =>
    match calculateVotingResult minVoting votes2 with
    | none => none
    | some vr =>
      let title := extractTitle sel.message
      some [{ title := title,
              description := "قرار بشأن: " ++ title,
              votes := votes2.filter (fun kv => !startsWithStr kv.1 "_"),
              outcome := vr.outcome,
              voting_details := vr,
              action_items := generateActionItems title vr.outcome }]

/-- Embeds `_extract_action_items` (orchestrator.py lines 787-794). -/
def extractActionItems (decisions : List Decision) : List String :=
  decisions.foldl (fun acc d => acc ++ d.action_items) []

/-! ## `MeetingOrchestrator.run_meeting`
(`src/core/orchestrator.py` lines 80-186) -/

/-- The `MeetingResult` record (orchestrator.py lines 23-31); the `artifacts` file
list is dropped. -/
structure MeetingResult where
  success : Bool
  session_id : String
  decisions : List Decision
  action_items : List String
  error : Option String
deriving Repr, DecidableEq

/-- The error string returned when the critic gate blocks the meeting
(orchestrator.py line 119). -/
def criticFailureError : String :=
  "فشل التقييم النقدي - لا يمكن المتابعة للتصويت"

/-- Embeds `MeetingOrchestrator.run_meeting` (orchestrator.py lines 80-186): run
the simulated meeting; an empty transcript (the gate-blocked signal) yields
`success := false` with `criticFailureError`; any propagating exception is
caught and yields `success := false` with its message; otherwise decisions
and action items are extracted and `success := true`.  Artifact writing,
index updates and memory persistence are external side effects. -/
def runMeeting (respond : String → String → String)
    (sessionId agenda : String)
    (suggestions votes votes2 : List (String × String))
    (extractTitle : String → String) (minVoting : Nat) : MeetingResult :=
  match simulateMeeting respond agenda suggestions votes minVoting with
  | none =>
    { success := false, session_id := sessionId, decisions := [],
      action_items := [], error := some "KeyError" }
  | some transcript =>
    if transcript.isEmpty then
      { success := false, session_id := sessionId, decisions := [],
        action_items := [], error := some criticFailureError }
    else
      match extractDecisions extractTitle votes2 minVoting transcript with
      | none =>
        { success := false, session_id := sessionId, decisions := [],
          action_items := [], error := some "KeyError" }
      | some decisions =>
        { success := true, session_id := sessionId, decisions := decisions,
          action_items := extractActionItems decisions, error := none }

/-! ## Registry initialization
(`AgentManager._validate_initialization`, `src/agents/agent_manager.py`
lines 220-236) -/

/-- The quorum-floor count of `_validate_initialization` (agent_manager.py
line 232): `[aid for aid in agents.keys() if VOTING_WEIGHTS[aid] > 0]`;
an unknown key raises `KeyError` (`none`). -/
def countVotingKeys : List String → Option Nat
  | [] => some 0
  | a :: rest =>
    match VOTING_WEIGHTS a with
    | none => none
    | some w =>
      match countVotingKeys rest with
      | none => none
      | some n => some (if 0 < w then n + 1 else n)

/-- Embeds `AgentManager._validate_initialization` (agent_manager.py lines
220-236) on the registry's key list (dict keys, hence expected nodup):
exactly 10 agents, no missing role, and at least `minVoting` agents with a
positive voting weight; each violation raises (modelled as `.error`). -/
def validateInitialization (agents : List String) (minVoting : Nat) :
    Except String Unit :=
  if agents.length ≠ 10 then
    .error "يجب أن يكون عدد الوكلاء 10 بالضبط"
  else if (AGENT_ROLES.filter (fun r => !agents.contains r)) ≠ [] then
    .error "أدوار مفقودة"
  else
    match countVotingKeys agents with
    | none => .error "KeyError"
    | some n =>
      if n < minVoting then
        .error "عدد الوكلاء المصوتين أقل من الحد الأدنى"
      else
        .ok ()

/-! ## Concrete scenarios used by the claim theorems -/

/-- The oracle instance where every generation call falls back to its
default text (the offline behaviour of `generate_response`). -/
def respondDefault : String → String → String := fun _ d => d

/-- An oracle instance whose critic produces an empty evaluation and every
other call falls back to its default text. -/
def respondGateFail : String → String → String :=
  fun a d => if a = "critic" then "" else d

/-- The spec §8 example critic text. -/
def specExampleCriticText : String :=
  "This has no risks, everything is excellent, excellent, excellent, excellent."

/-- A quorum-passing vote map: seven positive-weight voters. -/
def votesCE : List (String × String) :=
  [("ceo", "موافق"), ("pm", "موافق"), ("cto", "موافق"), ("developer", "موافق"),
   ("qa", "موافق"), ("finance", "غير موافق"), ("critic", "غير موافق")]

/-- The reputation assignment of the C2 counterexample: the ceo's
reputation multiplier is 2, everyone else's is 1. -/
def repCE : String → ℚ := fun a => if a = "ceo" then 2 else 1

/-- A quorum-passing vote map whose approval percentage is exactly 60:
total weight 9.5, positive weight 5.7. -/
def votesBoundary : List (String × String) :=
  [("ceo", "غير موافق"), ("pm", "موافق"), ("cto", "موافق"), ("qa", "موافق"),
   ("marketing", "موافق"), ("finance", "غير موافق"), ("critic", "غير موافق"),
   ("chair", "موافق")]

/-- A vote map with only six positive-weight voters (plus the advisory
zero-weight memory agent): fails the quorum of 7 although every single
vote approves. -/
def votesQuorumFail : List (String × String) :=
  [("ceo", "موافق"), ("pm", "موافق"), ("cto", "موافق"), ("developer", "موافق"),
   ("qa", "موافق"), ("marketing", "موافق"), ("memory", "موافق")]

/-- The tally of `votesBoundary`: exactly the 60% boundary, approved. -/
def rBoundary : VotingResult :=
  { outcome := "approved", failure_reason := none, approval_percentage := 60,
    total_votes := 8, voting_agents_count := 8, required_quorum := 7,
    vote_breakdown := [("غير موافق", 3), ("موافق", 5)],
    total_weight := 19/2, positive_weight := 57/10 }

/-- The tally of `votesQuorumFail` under a quorum of 7. -/
def vrQuorumFail : VotingResult :=
  { outcome := "failed_quorum",
    failure_reason := some (quorumFailureReason 6 7),
    approval_percentage := 0, total_votes := 7, voting_agents_count := 6,
    required_quorum := 7, vote_breakdown := [], total_weight := 0,
    positive_weight := 0 }

/-- A one-entry transcript holding a single project proposal. -/
def transcriptC7 : List Entry :=
  [{ agent := "ceo", message := "اقتراح المشروع الذكي", type := "project_proposal" }]

/-! ## Supporting lemmas -/

lemma VW_ceo : VOTING_WEIGHTS "ceo" = some (15/10) := rfl

lemma VW_pm : VOTING_WEIGHTS "pm" = some (13/10) := rfl

lemma VW_cto : VOTING_WEIGHTS "cto" = some (13/10) := rfl

lemma VW_developer : VOTING_WEIGHTS "developer" = some (12/10) := rfl

lemma VW_qa : VOTING_WEIGHTS "qa" = some (11/10) := rfl

lemma VW_marketing : VOTING_WEIGHTS "marketing" = some 1 := rfl

lemma VW_finance : VOTING_WEIGHTS "finance" = some (12/10) := rfl

lemma VW_critic : VOTING_WEIGHTS "critic" = some (11/10) := rfl

lemma VW_chair : VOTING_WEIGHTS "chair" = some 1 := rfl

lemma VW_memory : VOTING_WEIGHTS "memory" = some 0 := rfl

lemma isPos_approve : isPositiveVote "موافق" = true := by decide

lemma isPos_cond : isPositiveVote "موافق بشروط" = true := by decide

lemma isPos_reject : isPositiveVote "غير موافق" = false := by decide

lemma lookupWeight_isSome (tbl : List (String × ℚ)) (k : String) :
    (lookupWeight tbl k).isSome ↔ k ∈ tbl.map Prod.fst := by
  induction tbl with
  | nil => simp [lookupWeight]
  | cons kv rest ih =>
    by_cases h : kv.1 = k
    · simp [lookupWeight, h]
    · have hstep : lookupWeight (kv :: rest) k = lookupWeight rest k := by
        simp [lookupWeight, h]
      rw [hstep, ih, List.map_cons]
      constructor
      · exact fun hm => List.mem_cons_of_mem _ hm
      · intro hm
        rcases List.mem_cons.mp hm with hk | hm
        · exact absurd hk.symm h
        · exact hm

lemma VOTING_WEIGHTS_isSome (k : String) :
    (VOTING_WEIGHTS k).isSome ↔ k ∈ AGENT_ROLES := by
  have h := lookupWeight_isSome VOTING_WEIGHTS_TABLE k
  rwa [show VOTING_WEIGHTS_TABLE.map Prod.fst = AGENT_ROLES from rfl] at h

lemma countVotingAgents_isSome (votes : List (String × String)) :
    (countVotingAgents votes).isSome ↔
      ∀ kv ∈ votes, (VOTING_WEIGHTS kv.1).isSome := by
  induction votes with
  | nil => simp [countVotingAgents]
  | cons kv rest ih =>
    rcases hw : VOTING_WEIGHTS kv.1 with _ | w
    · simp [countVotingAgents, hw, List.forall_mem_cons]
    · rcases hc : countVotingAgents rest with _ | n
      · have hstep : countVotingAgents (kv :: rest) = none := by
          simp [countVotingAgents, hw, hc]
        rw [hstep]
        simp only [Option.isSome_none, Bool.false_eq_true, false_iff,
          List.forall_mem_cons, not_and]
        intro _ hrest
        have := ih.mpr hrest
        rw [hc] at this
        simp at this
      · have hstep : countVotingAgents (kv :: rest) =
            some (if 0 < w then n + 1 else n) := by
          simp [countVotingAgents, hw, hc]
        rw [hstep]
        simp only [Option.isSome_some, true_iff, List.forall_mem_cons]
        exact ⟨by simp [hw], ih.mp (by rw [hc]; rfl)⟩

lemma countVotingAgents_known (votes : List (String × String))
    (h : ∀ kv ∈ votes, (VOTING_WEIGHTS kv.1).isSome) :
    countVotingAgents votes =
      some ((votes.filter (fun kv => decide (0 < baseWeightD kv.1))).length) := by
  induction votes with
  | nil => simp [countVotingAgents]
  | cons kv rest ih =>
    obtain ⟨w, hw⟩ := Option.isSome_iff_exists.mp (h kv (List.mem_cons_self _ _))
    rw [show countVotingAgents (kv :: rest) =
          (match VOTING_WEIGHTS kv.1 with
           | none => none
           | some w =>
             match countVotingAgents rest with
             | none => none
             | some n => some (if 0 < w then n + 1 else n)) from rfl,
        hw, ih (fun x hx => h x (List.mem_cons_of_mem _ hx))]
    by_cases hpos : 0 < w
    · simp [List.filter_cons, baseWeightD, hw, hpos]
    · simp [List.filter_cons, baseWeightD, hw, hpos]

lemma sumWeightsAux_isSome (votes : List (String × String)) (acc : ℚ × ℚ) :
    (sumWeightsAux acc votes).isSome ↔
      ∀ kv ∈ votes, (VOTING_WEIGHTS kv.1).isSome := by
  induction votes generalizing acc with
  | nil => simp [sumWeightsAux]
  | cons kv rest ih =>
    rcases hw : VOTING_WEIGHTS kv.1 with _ | w
    · simp [sumWeightsAux, hw, List.forall_mem_cons]
    · simp [sumWeightsAux, hw, List.forall_mem_cons, ih]

lemma sumWeightsAux_known (votes : List (String × String)) (acc : ℚ × ℚ)
    (h : ∀ kv ∈ votes, (VOTING_WEIGHTS kv.1).isSome) :
    sumWeightsAux acc votes = some
      (acc.1 + (votes.map (fun kv => baseWeightD kv.1)).sum,
       acc.2 + ((votes.filter (fun kv => isPositiveVote kv.2)).map
         (fun kv => baseWeightD kv.1)).sum) := by
  induction votes generalizing acc with
  | nil => simp [sumWeightsAux]
  | cons kv rest ih =>
    obtain ⟨w, hw⟩ := Option.isSome_iff_exists.mp (h kv (List.mem_cons_self _ _))
    have hbw : baseWeightD kv.1 = w := by simp [baseWeightD, hw]
    have hstep : sumWeightsAux acc (kv :: rest) = sumWeightsAux
        (acc.1 + w, if isPositiveVote kv.2 then acc.2 + w else acc.2) rest := by
      simp [sumWeightsAux, hw]
    rw [hstep, ih _ (fun x hx => h x (List.mem_cons_of_mem _ hx))]
    by_cases hp : isPositiveVote kv.2
    · simp [List.filter_cons, hp, hbw, add_assoc]
    · simp [List.filter_cons, hp, hbw, add_assoc]

lemma countVotingKeys_known (agents : List String)
    (h : ∀ a ∈ agents, (VOTING_WEIGHTS a).isSome) :
    countVotingKeys agents =
      some ((agents.filter (fun a => decide (0 < baseWeightD a))).length) := by
  induction agents with
  | nil => simp [countVotingKeys]
  | cons a rest ih =>
    obtain ⟨w, hw⟩ := Option.isSome_iff_exists.mp (h a (List.mem_cons_self _ _))
    rw [show countVotingKeys (a :: rest) =
          (match VOTING_WEIGHTS a with
           | none => none
           | some w =>
             match countVotingKeys rest with
             | none => none
             | some n => some (if 0 < w then n + 1 else n)) from rfl,
        hw, ih (fun x hx => h x (List.mem_cons_of_mem _ hx))]
    by_cases hpos : 0 < w
    · simp [List.filter_cons, baseWeightD, hw, hpos]
    · simp [List.filter_cons, baseWeightD, hw, hpos]

/-- Characterization of the tally on the quorum-passing branch: the total
weight is the sum of the configured base weights of all vote entries, the
positive weight the same sum restricted to Approve/ApproveWithConditions
choices, and the outcome the 60%-threshold comparison. -/
lemma calculateVotingResult_passed (minVoting : Nat)
    (votes : List (String × String))
    (hall : ∀ kv ∈ votes, (VOTING_WEIGHTS kv.1).isSome)
    (hq : minVoting ≤ (votes.filter (fun kv => decide (0 < baseWeightD kv.1))).length) :
    calculateVotingResult minVoting votes = some
      { outcome := if 60 ≤ (if 0 < (votes.map (fun kv => baseWeightD kv.1)).sum
            then ((votes.filter (fun kv => isPositiveVote kv.2)).map
                   (fun kv => baseWeightD kv.1)).sum /
                 (votes.map (fun kv => baseWeightD kv.1)).sum * 100 else 0)
          then "approved" else "rejected",
        failure_reason := none,
        approval_percentage := if 0 < (votes.map (fun kv => baseWeightD kv.1)).sum
          then ((votes.filter (fun kv => isPositiveVote kv.2)).map
                 (fun kv => baseWeightD kv.1)).sum /
               (votes.map (fun kv => baseWeightD kv.1)).sum * 100 else 0,
        total_votes := votes.length,
        voting_agents_count :=
          (votes.filter (fun kv => decide (0 < baseWeightD kv.1))).length,
        required_quorum := minVoting,
        vote_breakdown := votes.foldl (fun l kv => bumpCount l kv.2) [],
        total_weight := (votes.map (fun kv => baseWeightD kv.1)).sum,
        positive_weight := ((votes.filter (fun kv => isPositiveVote kv.2)).map
          (fun kv => baseWeightD kv.1)).sum } := by
  have hc := countVotingAgents_known votes hall
  have hs : sumWeights votes = some
      ((votes.map (fun kv => baseWeightD kv.1)).sum,
       ((votes.filter (fun kv => isPositiveVote kv.2)).map
         (fun kv => baseWeightD kv.1)).sum) := by
    have h := sumWeightsAux_known votes (0, 0) hall
    simpa [sumWeights] using h
  simp [calculateVotingResult, hc, hs, not_lt.mpr hq]

/-! ## Claim theorems -/

/-- C10: the tally `calculate_voting_result` is total exactly on vote maps
all of whose participant keys lie in the configured role set; a key outside
it makes the unguarded `VOTING_WEIGHTS[...]` lookup raise `KeyError`
(modelled as `none`), already in the quorum count. -/
theorem C10_tally_total_iff_known_keys (minVoting : Nat)
    (votes : List (String × String)) :
    (calculateVotingResult minVoting votes).isSome ↔
      ∀ kv ∈ votes, kv.1 ∈ AGENT_ROLES := by
  have hiff : (∀ kv ∈ votes, (VOTING_WEIGHTS kv.1).isSome) ↔
      (∀ kv ∈ votes, kv.1 ∈ AGENT_ROLES) := by
    constructor
    · exact fun hall kv hkv => (VOTING_WEIGHTS_isSome kv.1).mp (hall kv hkv)
    · exact fun hall kv hkv => (VOTING_WEIGHTS_isSome kv.1).mpr (hall kv hkv)
  rw [← hiff, ← countVotingAgents_isSome]
  rcases hc : countVotingAgents votes with _ | n
  · simp [calculateVotingResult, hc]
  · have hall : ∀ kv ∈ votes, (VOTING_WEIGHTS kv.1).isSome := by
      rw [← countVotingAgents_isSome, hc]
      rfl
    by_cases hlt : n < minVoting
    · simp [calculateVotingResult, hc, hlt]
    · obtain ⟨tp, htp⟩ := Option.isSome_iff_exists.mp
        ((sumWeightsAux_isSome votes (0, 0)).mpr hall)
      have htp' : sumWeights votes = some tp := htp
      simp [calculateVotingResult, hc, hlt, htp']

/-- C3: quorum short-circuit.  When fewer than `minVoting` entries have a
positive base weight, the tally is `failed_quorum` with zero total weight,
zero positive weight and zero approval percentage, whatever the individual
vote choices are. -/
theorem C3_quorum_short_circuit (minVoting : Nat)
    (votes : List (String × String))
    (hk : ∀ kv ∈ votes, kv.1 ∈ AGENT_ROLES)
    (hlt : (votes.filter (fun kv => decide (0 < baseWeightD kv.1))).length < minVoting) :
    calculateVotingResult minVoting votes = some
      { outcome := "failed_quorum",
        failure_reason := some (quorumFailureReason
          (votes.filter (fun kv => decide (0 < baseWeightD kv.1))).length minVoting),
        approval_percentage := 0,
        total_votes := votes.length,
        voting_agents_count :=
          (votes.filter (fun kv => decide (0 < baseWeightD kv.1))).length,
        required_quorum := minVoting,
        vote_breakdown := [],
        total_weight := 0,
        positive_weight := 0 } := by
  have hall : ∀ kv ∈ votes, (VOTING_WEIGHTS kv.1).isSome :=
    fun kv h => (VOTING_WEIGHTS_isSome kv.1).mpr (hk kv h)
  simp [calculateVotingResult, countVotingAgents_known votes hall, hlt]

/-- Witness for C3: all seven cast votes approve, but only six voters have
positive weight, so the outcome is `failed_quorum` with all-zero weight
figures. -/
theorem C3_quorum_short_circuit_witness :
    (∀ kv ∈ votesQuorumFail, kv.1 ∈ AGENT_ROLES) ∧
    (votesQuorumFail.filter (fun kv => decide (0 < baseWeightD kv.1))).length < 7 ∧
    calculateVotingResult 7 votesQuorumFail = some
      { outcome := "failed_quorum",
        failure_reason := some (quorumFailureReason
          (votesQuorumFail.filter (fun kv => decide (0 < baseWeightD kv.1))).length 7),
        approval_percentage := 0,
        total_votes := votesQuorumFail.length,
        voting_agents_count :=
          (votesQuorumFail.filter (fun kv => decide (0 < baseWeightD kv.1))).length,
        required_quorum := 7,
        vote_breakdown := [],
        total_weight := 0,
        positive_weight := 0 } := by
  have hlt : (votesQuorumFail.filter
      (fun kv => decide (0 < baseWeightD kv.1))).length < 7 := by
    norm_num [votesQuorumFail, baseWeightD, VW_ceo, VW_pm, VW_cto, VW_developer,
      VW_qa, VW_marketing, VW_memory]
  exact ⟨by decide, hlt, C3_quorum_short_circuit 7 votesQuorumFail (by decide) hlt⟩

/-- C2 fails on the code: with the ceo's reputation multiplier set to 2,
the claimed effective-weight total would be 10.2, but the tally's total
weight on this quorum-passing vote map is the plain base-weight sum 8.7 —
`calculate_voting_result` reads `VOTING_WEIGHTS[agent_id]` and never
consults the reputation score. -/
theorem C2_counterexample_reputation_ignored :
    (calculateVotingResult 7 votesCE).map VotingResult.outcome = some "approved" ∧
    (calculateVotingResult 7 votesCE).map VotingResult.total_weight = some (87/10) ∧
    specEffectiveTotalWeight repCE votesCE = 102/10 ∧
    (87 : ℚ)/10 ≠ 102/10 := by
  have hcalc : calculateVotingResult 7 votesCE = some
      { outcome := "approved", failure_reason := none,
        approval_percentage := 6400/87, total_votes := 7,
        voting_agents_count := 7, required_quorum := 7,
        vote_breakdown := [("موافق", 5), ("غير موافق", 2)],
        total_weight := 87/10, positive_weight := 32/5 } := by
    norm_num [calculateVotingResult, countVotingAgents, sumWeights, sumWeightsAux,
      votesCE, bumpCount, baseWeightD, VW_ceo, VW_pm, VW_cto, VW_developer, VW_qa,
      VW_finance, VW_critic, isPos_approve, isPos_reject]
    decide
  refine ⟨by rw [hcalc]; rfl, by rw [hcalc]; rfl, ?_, by norm_num⟩
  simp only [specEffectiveTotalWeight, repCE, votesCE, baseWeightD, VW_ceo, VW_pm,
    VW_cto, VW_developer, VW_qa, VW_finance, VW_critic, List.map_cons, List.map_nil,
    List.sum_cons, List.sum_nil, Option.getD_some]
  simp
  all_goals norm_num

/-- C2 (amended): for every quorum-passing vote map with known keys, the
tally adds each entry's configured base weight (`VOTING_WEIGHTS`) to
`totalWeight`, and to `positiveWeight` when the choice is Approve or
ApproveWithConditions; the participant's `reputationMultiplier` is not
consulted. -/
theorem C2_amended_tally_uses_base_weight (minVoting : Nat)
    (votes : List (String × String))
    (hk : ∀ kv ∈ votes, kv.1 ∈ AGENT_ROLES)
    (hq : minVoting ≤ (votes.filter (fun kv => decide (0 < baseWeightD kv.1))).length) :
    (calculateVotingResult minVoting votes).map
        (fun r => (r.total_weight, r.positive_weight)) =
      some ((votes.map (fun kv => baseWeightD kv.1)).sum,
            ((votes.filter (fun kv => isPositiveVote kv.2)).map
              (fun kv => baseWeightD kv.1)).sum) := by
  have hall : ∀ kv ∈ votes, (VOTING_WEIGHTS kv.1).isSome :=
    fun kv h => (VOTING_WEIGHTS_isSome kv.1).mpr (hk kv h)
  rw [calculateVotingResult_passed minVoting votes hall hq]
  rfl

/-- Witness for the amended C2 at the concrete seven-voter map. -/
theorem C2_amended_tally_uses_base_weight_witness :
    (∀ kv ∈ votesCE, kv.1 ∈ AGENT_ROLES) ∧
    7 ≤ (votesCE.filter (fun kv => decide (0 < baseWeightD kv.1))).length ∧
    (calculateVotingResult 7 votesCE).map
        (fun r => (r.total_weight, r.positive_weight)) =
      some ((votesCE.map (fun kv => baseWeightD kv.1)).sum,
            ((votesCE.filter (fun kv => isPositiveVote kv.2)).map
              (fun kv => baseWeightD kv.1)).sum) := by
  have hq : 7 ≤ (votesCE.filter (fun kv => decide (0 < baseWeightD kv.1))).length := by
    norm_num [votesCE, baseWeightD, VW_ceo, VW_pm, VW_cto, VW_developer, VW_qa,
      VW_finance, VW_critic]
  exact ⟨by decide, hq, C2_amended_tally_uses_base_weight 7 votesCE (by decide) hq⟩

/-- C4: for every quorum-passing vote map with known keys, the approval
percentage is `(positiveWeight / totalWeight) * 100` (0 when the total
weight is 0), the outcome is "approved" exactly when that percentage is at
least 60 — the boundary is inclusive — and "rejected" otherwise. -/
theorem C4_sixty_percent_boundary_inclusive (minVoting : Nat)
    (votes : List (String × String)) (r : VotingResult)
    (hk : ∀ kv ∈ votes, kv.1 ∈ AGENT_ROLES)
    (hq : minVoting ≤ (votes.filter (fun kv => decide (0 < baseWeightD kv.1))).length)
    (hr : calculateVotingResult minVoting votes = some r) :
    r.approval_percentage =
      (if 0 < r.total_weight then r.positive_weight / r.total_weight * 100 else 0) ∧
    (r.outcome = "approved" ↔ 60 ≤ r.approval_percentage) ∧
    (r.outcome = "rejected" ↔ r.approval_percentage < 60) := by
  have hall : ∀ kv ∈ votes, (VOTING_WEIGHTS kv.1).isSome :=
    fun kv h => (VOTING_WEIGHTS_isSome kv.1).mpr (hk kv h)
  rw [calculateVotingResult_passed minVoting votes hall hq] at hr
  have hrec := Option.some.inj hr
  subst hrec
  by_cases h60 : (60 : ℚ) ≤ (if 0 < (votes.map (fun kv => baseWeightD kv.1)).sum
      then ((votes.filter (fun kv => isPositiveVote kv.2)).map
             (fun kv => baseWeightD kv.1)).sum /
           (votes.map (fun kv => baseWeightD kv.1)).sum * 100 else 0)
  · refine ⟨rfl, ?_, ?_⟩
    · simp [h60]
    · simp [h60, not_lt.mpr h60]
  · refine ⟨rfl, ?_, ?_⟩
    · simp [h60]
    · simp [h60, lt_of_not_le h60]

/-- Witness for C4 at the exact-60% vote map: the boundary is approved. -/
theorem C4_sixty_percent_boundary_inclusive_witness :
    (∀ kv ∈ votesBoundary, kv.1 ∈ AGENT_ROLES) ∧
    7 ≤ (votesBoundary.filter (fun kv => decide (0 < baseWeightD kv.1))).length ∧
    calculateVotingResult 7 votesBoundary = some rBoundary ∧
    (rBoundary.approval_percentage =
      (if 0 < rBoundary.total_weight
       then rBoundary.positive_weight / rBoundary.total_weight * 100 else 0) ∧
     (rBoundary.outcome = "approved" ↔ 60 ≤ rBoundary.approval_percentage) ∧
     (rBoundary.outcome = "rejected" ↔ rBoundary.approval_percentage < 60)) := by
  have hq : 7 ≤ (votesBoundary.filter (fun kv => decide (0 < baseWeightD kv.1))).length := by
    norm_num [votesBoundary, baseWeightD, VW_ceo, VW_pm, VW_cto, VW_qa,
      VW_marketing, VW_finance, VW_critic, VW_chair]
  have hr : calculateVotingResult 7 votesBoundary = some rBoundary := by
    norm_num [calculateVotingResult, countVotingAgents, sumWeights, sumWeightsAux,
      votesBoundary, rBoundary, bumpCount, baseWeightD, VW_ceo, VW_pm, VW_cto, VW_qa,
      VW_marketing, VW_finance, VW_critic, VW_chair, isPos_approve, isPos_reject]
    decide
  exact ⟨by decide, hq, hr,
    C4_sixty_percent_boundary_inclusive 7 votesBoundary rBoundary (by decide) hq hr⟩

/-- C5 fails on the code: the gate validator returns `true` — not `false`
as claimed — on the spec's example text "This has no risks, everything is
excellent, excellent, excellent, excellent.". -/
theorem C5_counterexample_example_text_passes :
    validateCriticContent specExampleCriticText = true := by decide

/-- C5 (amended): on the spec's example text the risk predicate is true
(keyword "risk" present) and the gate passes: the generic-praise rejection
counts only the Arabic superlatives "جيد" and "ممتاز" and the Arabic
no-issues phrase, so the repeated English "excellent" does not trigger it
and `gatePassed` is true. -/
theorem C5_amended_example_text_accepted :
    (requiredElements (toLowerStr specExampleCriticText)).head? = some true ∧
    notTooGeneric (toLowerStr specExampleCriticText) = true ∧
    validateCriticContent specExampleCriticText = true := by
  refine ⟨by decide, by decide, by decide⟩

/-- C9: the critic gate is deterministic in the evaluation's content: it
reads only the `message` field, so two evaluation entries with identical
content validate identically. -/
theorem C9_gate_deterministic (e1 e2 : Entry) (h : e1.message = e2.message) :
    validateCriticEvaluation e1 = validateCriticEvaluation e2 := by
  unfold validateCriticEvaluation
  rw [h]

/-- Witness for C9: same content, different author and message type. -/
theorem C9_gate_deterministic_witness :
    (Entry.mk "critic" "تقييم المخاطر" "contribution").message =
      (Entry.mk "chair" "تقييم المخاطر" "vote").message ∧
    validateCriticEvaluation (Entry.mk "critic" "تقييم المخاطر" "contribution") =
      validateCriticEvaluation (Entry.mk "chair" "تقييم المخاطر" "vote") :=
  ⟨rfl, C9_gate_deterministic _ _ rfl⟩

/-- C1 fails on the code: a meeting whose critic gate fails returns
`success = false` with the critic-failure error string, not
`success = true` with an empty decision set. -/
theorem C1_counterexample_gate_block_not_success :
    validateCriticContent (respondGateFail "critic" fallbackEvaluationText) = false ∧
    (runMeeting respondGateFail "s1" "جدول" [("ceo", "فكرة")] [] []
      (fun s => s) 7).success = false ∧
    (runMeeting respondGateFail "s1" "جدول" [("ceo", "فكرة")] [] []
      (fun s => s) 7).error = some criticFailureError := by
  exact ⟨by decide, rfl, rfl⟩

/-- C1 (amended): whenever the critic gate fails (with at least one project
suggestion on the table), `run_meeting` returns `success = false`, an
empty decision set and the critic-failure error string — a blocked gate is
reported as a failure, not as a successful business outcome. -/
theorem C1_amended_gate_block_returns_failure (respond : String → String → String)
    (sessionId agenda : String)
    (suggestions votes votes2 : List (String × String))
    (extractTitle : String → String) (minVoting : Nat)
    (hs : suggestions ≠ [])
    (hg : validateCriticContent (respond "critic" fallbackEvaluationText) = false) :
    runMeeting respond sessionId agenda suggestions votes votes2 extractTitle minVoting =
      { success := false, session_id := sessionId, decisions := [],
        action_items := [], error := some criticFailureError } := by
  rcases suggestions with _ | ⟨sel, rest⟩
  · exact absurd rfl hs
  · have hsim : simulateMeeting respond agenda (sel :: rest) votes minVoting = some [] := by
      simp [simulateMeeting, validateCriticEvaluation, createAgentMessage, hg]
    simp [runMeeting, hsim]

/-- Witness for the amended C1: the concrete run with an empty critic
evaluation. -/
theorem C1_amended_gate_block_returns_failure_witness :
    ([("ceo", "فكرة")] : List (String × String)) ≠ [] ∧
    validateCriticContent (respondGateFail "critic" fallbackEvaluationText) = false ∧
    runMeeting respondGateFail "s1" "جدول" [("ceo", "فكرة")] [] [] (fun s => s) 7 =
      { success := false, session_id := "s1", decisions := [], action_items := [],
        error := some criticFailureError } :=
  ⟨by decide, by decide,
   C1_amended_gate_block_returns_failure respondGateFail "s1" "جدول"
     [("ceo", "فكرة")] [] [] (fun s => s) 7 (by decide) (by decide)⟩

/-- C6 fails on the code: a gate-blocked meeting's transcript is returned
empty — the closing step never runs on that branch, so no closing entry is
appended. -/
theorem C6_counterexample_gate_block_no_closing :
    validateCriticContent (respondGateFail "critic" fallbackEvaluationText) = false ∧
    simulateMeeting respondGateFail "جدول" [("ceo", "فكرة")] [] 7 = some [] := by
  exact ⟨by decide, rfl⟩

/-- C6 (amended): on every branch that returns a nonempty transcript (no
suggestions, resolved, or quorum failed) the transcript ends with the
chair's closing entry; the gate-blocked branch instead returns the empty
transcript with no closing entry. -/
theorem C6_amended_closing_last_unless_blocked (respond : String → String → String)
    (agenda : String) (suggestions votes : List (String × String)) (minVoting : Nat)
    (h : (simulateMeeting respond agenda suggestions votes minVoting).getD [] ≠ []) :
    ((simulateMeeting respond agenda suggestions votes minVoting).getD []).getLast? =
      some (createAgentMessage respond "chair" closingText) := by
  rcases suggestions with _ | ⟨sel, rest⟩
  · simp [simulateMeeting, List.getLast?_cons, List.getLast?_append]
  · by_cases hg : validateCriticEvaluation
        (createAgentMessage respond "critic" fallbackEvaluationText)
    · rcases hvr : calculateVotingResult minVoting votes with _ | vr
      · exact absurd (by simp [simulateMeeting, hg, hvr]) h
      · by_cases hfq : vr.outcome = "failed_quorum" <;>
          simp [simulateMeeting, hg, hvr, hfq, List.getLast?_cons, List.getLast?_append]
    · exact absurd (by simp [simulateMeeting, hg]) h

/-- Witness for the amended C6: the no-suggestion meeting run with default
content ends with the chair's closing entry. -/
theorem C6_amended_closing_last_unless_blocked_witness :
    (simulateMeeting respondDefault "جدول" [] [] 7).getD [] ≠ [] ∧
    ((simulateMeeting respondDefault "جدول" [] [] 7).getD []).getLast? =
      some (createAgentMessage respondDefault "chair" closingText) :=
  ⟨by decide, C6_amended_closing_last_unless_blocked respondDefault "جدول" [] [] 7 (by decide)⟩

/-- C7: a tallied proposal whose outcome is `failed_quorum` still yields a
recorded decision, and its action items are exactly the fixed two-item
checklist (reschedule the vote, ensure attendance). -/
theorem C7_failed_quorum_two_action_items (extractTitle : String → String)
    (votes2 : List (String × String)) (minVoting : Nat)
    (transcript : List Entry) (e : Entry) (vr : VotingResult)
    (hp : (transcript.filter (fun en => en.type = "project_proposal")).head? = some e)
    (hvr : calculateVotingResult minVoting votes2 = some vr)
    (ho : vr.outcome = "failed_quorum") :
    extractDecisions extractTitle votes2 minVoting transcript = some
      [{ title := extractTitle e.message,
         description := "قرار بشأن: " ++ extractTitle e.message,
         votes := votes2.filter (fun kv => !startsWithStr kv.1 "_"),
         outcome := "failed_quorum",
         voting_details := vr,
         action_items :=
           ["إعادة جدولة التصويت على مشروع " ++ extractTitle e.message ++ " للاجتماع القادم",
            "التأكد من حضور جميع الوكلاء المصوتين في الاجتماع القادم"] }] := by
  rcases hfil : transcript.filter (fun en => en.type = "project_proposal") with _ | ⟨sel, rest⟩
  · rw [hfil] at hp
    exact absurd hp (by simp)
  · rw [hfil] at hp
    have hsel : sel = e := by simpa using hp
    subst hsel
    simp [extractDecisions, hfil, hvr, ho, generateActionItems]

/-- Witness for C7: a one-proposal transcript re-voted by a six-voter map
fails quorum and gets exactly the two-item checklist. -/
theorem C7_failed_quorum_two_action_items_witness :
    ((transcriptC7.filter (fun en => en.type = "project_proposal")).head? =
      some (Entry.mk "ceo" "اقتراح المشروع الذكي" "project_proposal")) ∧
    calculateVotingResult 7 votesQuorumFail = some vrQuorumFail ∧
    vrQuorumFail.outcome = "failed_quorum" ∧
    extractDecisions (fun s => s) votesQuorumFail 7 transcriptC7 = some
      [{ title := "اقتراح المشروع الذكي",
         description := "قرار بشأن: " ++ "اقتراح المشروع الذكي",
         votes := votesQuorumFail.filter (fun kv => !startsWithStr kv.1 "_"),
         outcome := "failed_quorum",
         voting_details := vrQuorumFail,
         action_items :=
           ["إعادة جدولة التصويت على مشروع " ++ "اقتراح المشروع الذكي" ++ " للاجتماع القادم",
            "التأكد من حضور جميع الوكلاء المصوتين في الاجتماع القادم"] }] := by
  have hvr : calculateVotingResult 7 votesQuorumFail = some vrQuorumFail := by
    norm_num [calculateVotingResult, countVotingAgents, votesQuorumFail, vrQuorumFail,
      quorumFailureReason, baseWeightD, VW_ceo, VW_pm, VW_cto, VW_developer, VW_qa,
      VW_marketing, VW_memory]
  exact ⟨by decide, hvr, rfl,
    C7_failed_quorum_two_action_items (fun s => s) votesQuorumFail 7 transcriptC7
      (Entry.mk "ceo" "اقتراح المشروع الذكي" "project_proposal") vrQuorumFail
      (by decide) hvr rfl⟩

/-- C8: registry initialization validation succeeds exactly when the
registry holds 10 agents covering every configured role with at least the
configured minimum of positive-weight voters; any violation raises. -/
theorem C8_registry_validation_iff (agents : List String) (minVoting : Nat) :
    validateInitialization agents minVoting = .ok () ↔
      (agents.length = 10 ∧ (∀ r ∈ AGENT_ROLES, r ∈ agents) ∧
       minVoting ≤ (agents.filter (fun a => decide (0 < baseWeightD a))).length) := by
  constructor
  · intro hok
    rw [validateInitialization] at hok
    by_cases hlen : agents.length = 10
    swap
    · simp [hlen] at hok
    have hc1 : ¬ agents.length ≠ 10 := by simp [hlen]
    rw [if_neg hc1] at hok
    by_cases hcov : (AGENT_ROLES.filter (fun r => !agents.contains r)) = []
    swap
    · rw [if_pos hcov] at hok
      exact absurd hok (by simp)
    have hc2 : ¬ (AGENT_ROLES.filter (fun r => !agents.contains r)) ≠ [] :=
      not_not_intro hcov
    rw [if_neg hc2] at hok
    have hcov' : ∀ r ∈ AGENT_ROLES, r ∈ agents := by
      intro r hr
      by_contra hna
      have hmem : r ∈ AGENT_ROLES.filter (fun r => !agents.contains r) := by
        simp [List.mem_filter, hr, List.contains, hna]
      rw [hcov] at hmem
      exact absurd hmem (by simp)
    rcases hn : countVotingKeys agents with _ | n
    · rw [hn] at hok
      exact absurd hok (by simp)
    · rw [hn] at hok
      by_cases hq : n < minVoting
      · simp [hq] at hok
      · have hall : ∀ a ∈ agents, (VOTING_WEIGHTS a).isSome := by
          intro a ha
          rw [VOTING_WEIGHTS_isSome]
          have hsp : AGENT_ROLES.Subperm agents :=
            List.subperm_of_subset (by decide) (fun r hr => hcov' r hr)
          have hperm : AGENT_ROLES.Perm agents :=
            hsp.perm_of_length_le (by rw [hlen]; rfl)
          exact hperm.symm.mem_iff.mp ha
        rw [countVotingKeys_known agents hall] at hn
        have hn' := Option.some.inj hn
        refine ⟨hlen, hcov', ?_⟩
        rw [hn']
        exact not_lt.mp hq
  · rintro ⟨hlen, hcov', hq⟩
    have hcov : (AGENT_ROLES.filter (fun r => !agents.contains r)) = [] := by
      rw [List.filter_eq_nil_iff]
      intro r hr
      simp [List.contains, hcov' r hr]
    have hall : ∀ a ∈ agents, (VOTING_WEIGHTS a).isSome := by
      intro a ha
      rw [VOTING_WEIGHTS_isSome]
      have hsp : AGENT_ROLES.Subperm agents :=
        List.subperm_of_subset (by decide) (fun r hr => hcov' r hr)
      have hperm : AGENT_ROLES.Perm agents :=
        hsp.perm_of_length_le (by rw [hlen]; rfl)
      exact hperm.symm.mem_iff.mp ha
    have hc1 : ¬ agents.length ≠ 10 := by simp [hlen]
    have hc2 : ¬ (AGENT_ROLES.filter (fun r => !agents.contains r)) ≠ [] :=
      not_not_intro hcov
    rw [validateInitialization, if_neg hc1, if_neg hc2,
      countVotingKeys_known agents hall]
    simp [not_lt.mpr hq]

end AgentCompany
